import Mathlib

/-!
Verification of the client-side trust engine of the license-validation SDK
(`license_client.py`, `license_security.py`).

Modelling conventions:
* Python byte strings and text strings are lists of naturals (`Bytes`),
  one entry per byte / ASCII character code.
* Wall-clock times are rationals (Python floats from `time.time()`),
  signature timestamps are integers (the source converts with `int(...)`).
* External library primitives (SHA-256, Fernet authenticated encryption,
  RSA signature verification, ISO-8601 parsing, JSON parsing) are abstract
  parameters of the definitions that use them; base64, the XOR stream and
  all control flow are translated concretely from the source.
* A Python function that can raise returns `Option`/`Except`; `none` /
  `.error` is the exception path.
-/

namespace LicenseSDK

/-- Byte strings: each entry is one byte (or one ASCII character code). -/
abbrev Bytes := List Nat

/-! ## Base64 (Python `base64.b64encode` / `b64decode` on canonical input)

The cache encryption returns `base64.b64encode(...)` strings and the
signature check calls `base64.b64decode` on the signature; the model
implements the standard alphabet with `=` (code 61) padding.  `b64decode`
accepts exactly the canonical encodings produced by `b64encode` and
returns `none` (the exception path) otherwise. -/

/-- The standard base64 alphabet as ASCII codes. -/
def b64table : Bytes :=
  [65,66,67,68,69,70,71,72,73,74,75,76,77,78,79,80,81,82,83,84,85,86,87,88,89,90,
   97,98,99,100,101,102,103,104,105,106,107,108,109,110,111,112,113,114,115,116,
   117,118,119,120,121,122,48,49,50,51,52,53,54,55,56,57,43,47]

/-- Character for a six-bit group. -/
def b64chr (n : Nat) : Nat := b64table.getD n 65

/-- Six-bit group for a character; `none` when the character is not in the
alphabet. -/
def b64idx (c : Nat) : Option Nat :=
  if c ∈ b64table then some (b64table.indexOf c) else none

def b64encode : Bytes → Bytes
  | [] => []
  | [a] => [b64chr (a / 4), b64chr (a % 4 * 16), 61, 61]
  | [a, b] => [b64chr (a / 4), b64chr (a % 4 * 16 + b / 16), b64chr (b % 16 * 4), 61]
  | a :: b :: c :: rest =>
      b64chr (a / 4) :: b64chr (a % 4 * 16 + b / 16) ::
      b64chr (b % 16 * 4 + c / 64) :: b64chr (c % 64) :: b64encode rest

def b64decode : Bytes → Option Bytes
  | [] => some []
  | c1 :: c2 :: c3 :: c4 :: rest =>
    match b64idx c1, b64idx c2 with
    | some s1, some s2 =>
      if c3 = 61 then
        if c4 = 61 ∧ rest = [] then some [s1 * 4 + s2 / 16] else none
      else
        match b64idx c3 with
        | some s3 =>
          if c4 = 61 then
            if rest = [] then some [s1 * 4 + s2 / 16, s2 % 16 * 16 + s3 / 4] else none
          else
            match b64idx c4, b64decode rest with
            | some s4, some ds =>
                some ((s1 * 4 + s2 / 16) :: (s2 % 16 * 16 + s3 / 4) :: (s3 % 4 * 64 + s4) :: ds)
            | _, _ => none
        | none => none
    | _, _ => none
  | _ => none

theorem b64idx_b64chr : ∀ n : Nat, n < 64 → b64idx (b64chr n) = some n := by
  decide

theorem b64chr_ne_pad : ∀ n : Nat, n < 64 → b64chr n ≠ 61 := by
  decide

/-- Decoding inverts encoding on genuine byte strings. -/
theorem b64decode_b64encode : ∀ l : Bytes, (∀ b ∈ l, b < 256) →
    b64decode (b64encode l) = some l
  | [] => fun _ => rfl
  | [a] => fun h => by
      have ha : a < 256 := h a (by simp)
      have h1 : a / 4 < 64 := by omega
      have h2 : a % 4 * 16 < 64 := by omega
      simp [b64encode, b64decode, b64idx_b64chr _ h1, b64idx_b64chr _ h2]
      omega
  | [a, b] => fun h => by
      have ha : a < 256 := h a (by simp)
      have hb : b < 256 := h b (by simp)
      have h1 : a / 4 < 64 := by omega
      have h2 : a % 4 * 16 + b / 16 < 64 := by omega
      have h3 : b % 16 * 4 < 64 := by omega
      simp [b64encode, b64decode, b64idx_b64chr _ h1, b64idx_b64chr _ h2,
        b64idx_b64chr _ h3, b64chr_ne_pad _ h3]
      omega
  | a :: b :: c :: rest => fun h => by
      have ha : a < 256 := h a (by simp)
      have hb : b < 256 := h b (by simp)
      have hc : c < 256 := h c (by simp)
      have h1 : a / 4 < 64 := by omega
      have h2 : a % 4 * 16 + b / 16 < 64 := by omega
      have h3 : b % 16 * 4 + c / 64 < 64 := by omega
      have h4 : c % 64 < 64 := by omega
      have ih : b64decode (b64encode rest) = some rest :=
        b64decode_b64encode rest (fun x hx => h x (by simp [hx]))
      simp [b64encode, b64decode, b64idx_b64chr _ h1, b64idx_b64chr _ h2,
        b64idx_b64chr _ h3, b64idx_b64chr _ h4, b64chr_ne_pad _ h3,
        b64chr_ne_pad _ h4, ih]
      omega

/-! ## Cache encryption (`CacheEncryption` in `license_client.py`)

Strings are modelled at the byte level, so Python's `str.encode` /
`bytes.decode` pair is the identity on the model.  The Fernet primitive
from the `cryptography` package is an abstract pair of functions; the XOR
stream fallback (`_simple_obfuscate` / `_simple_deobfuscate`) is concrete.
The XOR key is `hashlib.sha256(machine_id + app_key).digest()`; round-trip
facts hold for an arbitrary key, so the model takes the key directly. -/

/-- One pass of the source's XOR loop: byte `i` of the data is XORed with
byte `i % len(key)` of the key (`char ^ key[i % len(key)]`). -/
def xorFrom (key : Bytes) (i : Nat) : Bytes → Bytes
  | [] => []
  | c :: rest => (c ^^^ key.getD (i % key.length) 0) :: xorFrom key (i + 1) rest

def xorWith (key : Bytes) (data : Bytes) : Bytes := xorFrom key 0 data

/-- `_simple_obfuscate`: XOR the UTF-8 bytes with the keyed stream and
base64-encode the result. -/
def simpleObfuscate (key : Bytes) (data : Bytes) : Bytes :=
  b64encode (xorWith key data)

/-- `_simple_deobfuscate`: base64-decode, XOR with the same stream.  A
base64 failure is the exception path (`none`). -/
def simpleDeobfuscate (key : Bytes) (data : Bytes) : Option Bytes :=
  match b64decode data with
  | some decoded => some (xorWith key decoded)
  | none => none

/-- The Fernet authenticated-encryption primitive of the `cryptography`
package, abstracted: `fenc` produces a token, `fdec` returns `none` when
the token fails authenticated decryption. -/
structure FernetBox where
  fenc : Bytes → Bytes
  fdec : Bytes → Option Bytes

/-- `CacheEncryption.encrypt`: with the crypto library available, a
base64-wrapped Fernet token; otherwise the XOR obfuscation. -/
def cacheEncrypt (cryptoAvailable : Bool) (fb : FernetBox) (key : Bytes)
    (data : Bytes) : Bytes :=
  if cryptoAvailable = false then simpleObfuscate key data
  else b64encode (fb.fenc data)

/-- `CacheEncryption.decrypt`: with the crypto library available, first
try base64 + Fernet; on any failure fall back to the XOR de-obfuscation;
if that also fails, raise (`none`, the `LicenseError` path).  Without the
library, only the XOR path runs. -/
def cacheDecrypt (cryptoAvailable : Bool) (fb : FernetBox) (key : Bytes)
    (encryptedData : Bytes) : Option Bytes :=
  if cryptoAvailable = false then simpleDeobfuscate key encryptedData
  else
    match (b64decode encryptedData).bind fb.fdec with
    | some decrypted => some decrypted
    | none =>
      match simpleDeobfuscate key encryptedData with
      | some plain => some plain
      | none => none

theorem xorFrom_involutive (key : Bytes) :
    ∀ (i : Nat) (data : Bytes), xorFrom key i (xorFrom key i data) = data := by
  intro i data
  induction data generalizing i with
  | nil => rfl
  | cons c rest ih =>
      simp [xorFrom, ih, Nat.xor_assoc]

theorem xorFrom_lt (key : Bytes) (hkey : ∀ b ∈ key, b < 256) :
    ∀ (i : Nat) (data : Bytes), (∀ b ∈ data, b < 256) →
      ∀ b ∈ xorFrom key i data, b < 256 := by
  intro i data
  induction data generalizing i with
  | nil => intro _ b hb; simp [xorFrom] at hb
  | cons c rest ih =>
      intro h b hb
      simp only [xorFrom, List.mem_cons] at hb
      rcases hb with hb | hb
      · subst hb
        have hc : c < 256 := h c (by simp)
        have hk : key.getD (i % key.length) 0 < 256 := by
          rcases hg : key[i % key.length]? with _ | v
          · simp [List.getD_eq_getElem?_getD, hg]
          · have hv : v < 256 := hkey v (List.getElem?_mem hg)
            simp [List.getD_eq_getElem?_getD, hg]
            omega
        calc c ^^^ key.getD (i % key.length) 0 < 2 ^ 8 :=
              Nat.xor_lt_two_pow (by omega) (by omega)
          _ = 256 := rfl
      · exact ih (i + 1) (fun x hx => h x (by simp [hx])) b hb

/-! ## ASCII, hex and certificate fingerprints
(`CertificatePinningAdapter` in `license_client.py`) -/

def asciiUpper (c : Nat) : Nat := if 97 ≤ c ∧ c ≤ 122 then c - 32 else c

def asciiLower (c : Nat) : Nat := if 65 ≤ c ∧ c ≤ 90 then c + 32 else c

/-- One lowercase hex digit (`hexdigest` output character). -/
def hexDigit (n : Nat) : Nat := if n < 10 then 48 + n else 87 + n

/-- `hashlib...hexdigest()`: lowercase hex of a byte string. -/
def hexEncode : Bytes → Bytes
  | [] => []
  | b :: rest => hexDigit (b / 16) :: hexDigit (b % 16) :: hexEncode rest

/-- ASCII codes of the literal `SHA256:`. -/
def fingerprintTag : Bytes := [83, 72, 65, 50, 53, 54, 58]

/-- Constructor normalisation of a configured fingerprint: upper-case,
drop a leading `SHA256:` tag, remove every colon, lower-case the rest. -/
def parsePinnedFingerprint (s : Bytes) : Bytes :=
  let fp := s.map asciiUpper
  let fp := if fp.take 7 = fingerprintTag then fp.drop 7 else fp
  (fp.filter (fun c => c ≠ 58)).map asciiLower

/-- The adapter state relevant to the pinning decision:
`_expected_fingerprint` and `skip_verify`. -/
structure PinAdapter where
  expected : Option Bytes
  skipVerify : Bool

/-- `CertificatePinningAdapter.__init__` for the fingerprint-string mode:
the expected value is the normalised configured string. -/
def mkPinAdapter (certFingerprint : Option Bytes) (skipVerify : Bool) : PinAdapter :=
  { expected := certFingerprint.map parsePinnedFingerprint, skipVerify := skipVerify }

/-- Outcome of the secondary TLS probe made by
`_verify_certificate_fingerprint`. -/
inductive TlsProbe where
  | connectFail
  | leafCert (der : Bytes)

/-- Result of the pinning check: either nothing is raised or a
`CertificatePinningError` escapes. -/
inductive PinCheck where
  | ok
  | violation
deriving DecidableEq

/-- `_verify_certificate_fingerprint`: non-HTTPS URLs return silently; a
failed secondary connection is swallowed (`except Exception: pass`); a
retrieved leaf certificate raises exactly when the lowercase hex SHA-256
of its DER differs from the expected value. -/
def verifyCertFingerprint (sha256 : Bytes → Bytes) (expected : Bytes)
    (https : Bool) (probe : TlsProbe) : PinCheck :=
  if https = false then .ok
  else
    match probe with
    | .connectFail => .ok
    | .leafCert der =>
        if hexEncode (sha256 der) ≠ expected then .violation else .ok

/-- `CertificatePinningAdapter.send` after the wrapped request: the
fingerprint check runs only when `_expected_fingerprint` is truthy (a
non-empty string) and `skip_verify` is off. -/
def adapterSend (sha256 : Bytes → Bytes) (ad : PinAdapter) (https : Bool)
    (probe : TlsProbe) : PinCheck :=
  match ad.expected with
  | some fp =>
      if fp ≠ [] ∧ ad.skipVerify = false then
        verifyCertFingerprint sha256 fp https probe
      else .ok
  | none => .ok

/-! ## License client state machine (`LicenseClient` in `license_client.py`) -/

/-- A Python value as it can occur in the cached license dictionary
(`expire_at` in particular): absent, a string, a number, or a boolean. -/
inductive PyVal where
  | pyNone
  | pyStr (s : Bytes)
  | pyNum (q : ℚ)
  | pyBool (b : Bool)
deriving DecidableEq

/-- The fields of `_license_info` the verified claims touch.  Further
server-echoed fields (`features`, `remaining_days`, …) are opaque to the
validity logic and are not modelled. -/
structure LicenseInfo where
  valid : Bool
  expireAt : PyVal
  lastVerifiedAt : Option ℚ
deriving DecidableEq

/-- Client state relevant to the validity query: the in-memory record and
the configured offline grace period (days). -/
structure ClientState where
  licenseInfo : Option LicenseInfo
  graceDays : ℚ
deriving DecidableEq

/-- Outcome of one `_request` round-trip, as seen by `verify`:
`pinError` models a `CertificatePinningError` (re-raised by `_request`),
`reqError` models a `LicenseError` (a `requests` exception or an
application envelope with `code != 0`), `ok v` a successful envelope whose
data carries `valid = v` (`result.get('valid', False)`). -/
inductive NetOutcome where
  | pinError
  | reqError
  | ok (valid : Bool)

/-- `LicenseClient.verify`: a `LicenseError` is caught and becomes
`False`; a pinning error propagates (`.error ()`); on success
`last_verified_at` is refreshed to `now` and the response's `valid` flag
is returned.  The merge of further response fields into the record is
outside the modelled fields. -/
def clientVerify (net : NetOutcome) (st : ClientState) (now : ℚ) :
    Except Unit Bool × ClientState :=
  match net with
  | .pinError => (.error (), st)
  | .reqError => (.ok false, st)
  | .ok v =>
    match st.licenseInfo with
    | some info =>
        (.ok v, { st with licenseInfo := some { info with lastVerifiedAt := some now } })
    | none => (.ok v, st)

/-- The expiry test inside `is_valid`: runs only when `expire_at` is
truthy and is a string; a parse failure is swallowed (`except: pass`).
`parseIso` models `datetime.fromisoformat` composed with the `Z` →
`+00:00` rewrite and `.timestamp()`; `none` is the raising path. -/
def expiredCheck (parseIso : Bytes → Option ℚ) (expireAt : PyVal) (now : ℚ) : Bool :=
  match expireAt with
  | .pyStr s =>
      if s ≠ [] then
        match parseIso s with
        | some t => decide (t < now)
        | none => false
      else false
  | _ => false

/-- `LicenseClient.is_valid`: no record or a falsy `valid` flag → `False`;
then the expiry test; then `offline_days = (now - last_verified_at)/86400`
against the grace period, falling back to a synchronous `verify` when the
grace period is exceeded.  `last_verified_at` defaults to `0`
(`.get('last_verified_at', 0)`). -/
def clientIsValid (parseIso : Bytes → Option ℚ) (net : NetOutcome)
    (st : ClientState) (now : ℚ) : Except Unit Bool × ClientState :=
  match st.licenseInfo with
  | none => (.ok false, st)
  | some info =>
    if info.valid = false then (.ok false, st)
    else if expiredCheck parseIso info.expireAt now then (.ok false, st)
    else
      let last := info.lastVerifiedAt.getD 0
      if st.graceDays < (now - last) / 86400 then clientVerify net st now
      else (.ok true, st)

/-! ## Cache loading (`LicenseClient._load_cache`) -/

/-- `_load_cache` as a total function from the on-disk artefacts to the
loaded record.  `dec` is the configured `CacheEncryption.decrypt`
(partially applied), `parse` is `json.loads` restricted to the modelled
fields; `none` is their exception path.  Every exception inside the
source's `try` blocks lands in an `except` that leaves `_license_info =
None`, so the model is a total function and a failure never escapes. -/
def loadCache (dec : Bytes → Option Bytes) (parse : Bytes → Option LicenseInfo)
    (encryptCache : Bool) (hasEncryption : Bool)
    (cacheFile : Option Bytes) (oldCacheFile : Option Bytes) : Option LicenseInfo :=
  match cacheFile with
  | some content =>
    match (if encryptCache ∧ hasEncryption then dec content else some content) with
    | some plain => parse plain
    | none => none
  | none =>
    match oldCacheFile with
    | some oldContent => if encryptCache then parse oldContent else none
    | none => none

/-! ## Response-signature verification
(`LicenseClient._verify_response_signature` / `_verify_signature`) -/

/-- The exception surface of `_verify_response_signature`: accept, or one
of the four raising paths. -/
inductive SigResult where
  | accept
  | noKeyError
  | missingError
  | expiredError
  | invalidError
deriving DecidableEq

/-- Signature configuration of a client: whether `_public_key` was
initialised, the `require_signature` flag and the replay window
`signature_time_window` (seconds). -/
structure SigConfig where
  hasPublicKey : Bool
  requireSignature : Bool
  timeWindow : Int

/-- A server payload as the verifier sees it: the optional integer
issuance timestamp `data.get('timestamp')`, and the canonical bytes of
the payload with the `signature` key removed (`json.dumps` with sorted
keys and minimal separators). -/
structure SignedPayload where
  timestamp : Option Int
  canonicalBytes : Bytes

/-- The replay test of `_verify_response_signature`: only with a positive
window and a truthy timestamp, and then expired exactly when
`abs(now - timestamp)` exceeds the window. -/
def replayExpired (cfg : SigConfig) (ts : Option Int) (now : Int) : Bool :=
  if 0 < cfg.timeWindow then
    match ts with
    | some t => if t ≠ 0 then decide (cfg.timeWindow < |now - t|) else false
    | none => false
  else false

/-- `_verify_signature`: base64-decode the signature and check the RSA
PKCS#1 v1.5 / SHA-256 verification primitive; any failure raises
`SignatureVerificationError`.  `rsaVerify sig data` abstracts
`public_key.verify(sig, data, PKCS1v15, SHA256)` succeeding. -/
def verifySignatureRSA (rsaVerify : Bytes → Bytes → Bool) (dataBytes : Bytes)
    (signatureB64 : Bytes) : SigResult :=
  match b64decode signatureB64 with
  | none => .invalidError
  | some sigBytes => if rsaVerify sigBytes dataBytes then .accept else .invalidError

/-- `_verify_response_signature`, in source order: the no-key gate, the
no-signature gate, the replay window, then the cryptographic check. -/
def verifyResponseSignature (rsaVerify : Bytes → Bytes → Bool) (cfg : SigConfig)
    (p : SignedPayload) (signature : Bytes) (now : Int) : SigResult :=
  if cfg.hasPublicKey = false then
    if cfg.requireSignature then .noKeyError else .accept
  else if signature = [] then
    if cfg.requireSignature then .missingError else .accept
  else if replayExpired cfg p.timestamp now then .expiredError
  else verifySignatureRSA rsaVerify p.canonicalBytes signature

/-! ## Signature-key configuration (`LicenseClient.__init__` /
`set_public_key`) -/

/-- The two constructor-controlled fields behind the signature-policy
invariant. -/
structure SigKeyCfg where
  publicKeyPem : Option Bytes
  requireSignature : Bool
deriving DecidableEq

/-- `LicenseClient.__init__`: `require_signature = require_signature or
(public_key_pem is not None)`. -/
def initSigKeyCfg (publicKeyPem : Option Bytes) (requireSignature : Bool) : SigKeyCfg :=
  { publicKeyPem := publicKeyPem,
    requireSignature := requireSignature || publicKeyPem.isSome }

/-- `LicenseClient.set_public_key`: stores the new PEM and forces
`require_signature = True`. -/
def setPublicKey (cfg : SigKeyCfg) (pem : Bytes) : SigKeyCfg :=
  { cfg with publicKeyPem := some pem, requireSignature := true }

/-! ## Anti-analysis heuristics (`license_security.py`) -/

/-- `AntiDebug.is_debugger_present`: the four probes (`sys.gettrace`,
debug environment variables, debugger parent process, timing) are run in
order and the function returns `True` as soon as any one fires; a probe
that raises counts as not firing. -/
def isDebuggerPresent (trace env parent timing : Bool) : Bool :=
  trace || env || parent || timing

/-- Number of positive indicators in a list. -/
def indicatorCount (l : List Bool) : Nat := (l.filter (fun b => b)).length

/-- `EnvironmentChecker.is_virtual_machine`: each probe group (MAC
address's vendor, platform string, device files) appends at most one tag
to `vm_indicators`; the verdict is `len(vm_indicators) >= 2`. -/
def isVirtualMachine (macHit platformHit fileHit : Bool) : Bool :=
  let ind : List Bytes := []
  let ind := if macHit then ind ++ [[109, 97, 99]] else ind
  let ind := if platformHit then ind ++ [[112, 108, 97, 116]] else ind
  let ind := if fileHit then ind ++ [[102, 105, 108, 101]] else ind
  decide (2 ≤ ind.length)

/-- `EnvironmentChecker.is_sandbox`: same shape over the username,
process-count and disk-size probes; the verdict is
`len(sandbox_indicators) >= 2`. -/
def isSandbox (usernameHit processCountHit diskSizeHit : Bool) : Bool :=
  let ind : List Bytes := []
  let ind := if usernameHit then ind ++ [[117, 115, 101, 114]] else ind
  let ind := if processCountHit then ind ++ [[112, 114, 111, 99]] else ind
  let ind := if diskSizeHit then ind ++ [[100, 105, 115, 107]] else ind
  decide (2 ≤ ind.length)

/-! ## Hardened client (`SecureLicenseClient` in `license_security.py`) -/

/-- The mutable state of a `SecureLicenseClient` and its wrapped
`LicenseClient` touched by the violation path: the call counter, the
full-check timestamp, the in-memory record and the two cache files that
`_clear_cache` removes. -/
structure SecureState where
  checkCount : Nat
  lastFullCheck : ℚ
  licenseInfo : Option LicenseInfo
  cacheFile : Option Bytes
  oldCacheFile : Option Bytes
deriving DecidableEq

/-- The environment probes sampled during one hardened `is_valid` call.
The debugger probe is sampled twice — once by the `secure_check`
decorator and once inside `_full_security_check` — and the two samples
can differ (the timing probe is noisy).  `validatorsOk` abstracts
`DistributedValidator.validate_all` over the four registered validators
(integrity, time, record-present, valid-flag). -/
structure SecProbes where
  debuggerAtWrapper : Bool
  debuggerAtFullCheck : Bool
  timeOk : Bool
  integrityOk : Bool
  validatorsOk : Bool

/-- `LicenseClient._clear_cache`: both cache files are removed and the
in-memory record is dropped. -/
def clearCache (st : SecureState) : SecureState :=
  { st with licenseInfo := none, cacheFile := none, oldCacheFile := none }

/-- `SecureLicenseClient._full_security_check` with
`_on_security_violation`: the four checks in source order, each failure
silently erasing the cache and answering `false`; no distinguishing
signal reaches the caller. -/
def fullSecurityCheck (probes : SecProbes) (enableIntegrityCheck : Bool)
    (st : SecureState) : Bool × SecureState :=
  if probes.debuggerAtFullCheck then (false, clearCache st)
  else if probes.timeOk = false then (false, clearCache st)
  else if enableIntegrityCheck = true ∧ probes.integrityOk = false then
    (false, clearCache st)
  else if probes.validatorsOk = false then (false, clearCache st)
  else (true, st)

/-- `SecureLicenseClient.is_valid` under the `secure_check` decorator:
the decorator short-circuits to `False` when its own debugger sample
fires; otherwise the counter is bumped and a full security check runs on
every 10th call or after a 300-second cooldown; a failed full check
answers `False`, a passing one stamps `_last_full_check` and delegates to
the wrapped client's `is_valid` (abstracted as `baseValid`). -/
def secureIsValid (probes : SecProbes) (enableIntegrityCheck : Bool)
    (baseValid : Bool) (now : ℚ) (st : SecureState) : Bool × SecureState :=
  if probes.debuggerAtWrapper then (false, st)
  else
    let st1 := { st with checkCount := st.checkCount + 1 }
    if st1.checkCount % 10 = 0 ∨ 300 < now - st1.lastFullCheck then
      match fullSecurityCheck probes enableIntegrityCheck st1 with
      | (false, st2) => (false, st2)
      | (true, st2) => (baseValid, { st2 with lastFullCheck := now })
    else (baseValid, st1)

/-! ## Claims -/

/-- C5: the independent certificate-fingerprint check has exactly three
outcomes: a retrieved leaf certificate whose SHA-256 hex fingerprint
differs from the normalised (colon-stripped, lower-cased) pinned value
raises a `CertificatePinningError`; a failed secondary TLS connection
reports nothing; and in skip-verification mode the check never runs, so
skip-mode never raises.  A matching fingerprint also reports nothing. -/
theorem claim5_pinning_outcomes :
    (∀ (sha256 : Bytes → Bytes) (cfgFp der : Bytes),
        parsePinnedFingerprint cfgFp ≠ [] →
        hexEncode (sha256 der) ≠ parsePinnedFingerprint cfgFp →
        adapterSend sha256 (mkPinAdapter (some cfgFp) false) true (.leafCert der) =
          .violation) ∧
    (∀ (sha256 : Bytes → Bytes) (ad : PinAdapter) (https : Bool),
        adapterSend sha256 ad https .connectFail = .ok) ∧
    (∀ (sha256 : Bytes → Bytes) (cfgFp : Option Bytes) (https : Bool) (probe : TlsProbe),
        adapterSend sha256 (mkPinAdapter cfgFp true) https probe = .ok) ∧
    (∀ (sha256 : Bytes → Bytes) (cfgFp der : Bytes),
        hexEncode (sha256 der) = parsePinnedFingerprint cfgFp →
        adapterSend sha256 (mkPinAdapter (some cfgFp) false) true (.leafCert der) =
          .ok) := by
  refine ⟨?_, ?_, ?_, ?_⟩
  · intro sha256 cfgFp der hne hfp
    simp [adapterSend, mkPinAdapter, verifyCertFingerprint, hne, hfp]
  · intro sha256 ad https
    rcases ad with ⟨fp, skip⟩
    rcases fp with _ | fp
    · rfl
    · by_cases h : fp ≠ [] ∧ skip = false <;>
        simp [adapterSend, verifyCertFingerprint, h]
  · intro sha256 cfgFp https probe
    rcases cfgFp with _ | fp <;> simp [adapterSend, mkPinAdapter]
  · intro sha256 cfgFp der heq
    by_cases hne : parsePinnedFingerprint cfgFp ≠ [] <;>
      simp [adapterSend, mkPinAdapter, verifyCertFingerprint, heq, hne]

/-- Witness for C5 at concrete inputs: a constant digest function, the
pinned string `ab`, and each of the three probe situations. -/
theorem claim5_pinning_outcomes_witness :
    adapterSend (fun _ => [0]) (mkPinAdapter (some [97, 98]) false) true
      (.leafCert [5]) = .violation ∧
    adapterSend (fun _ => [0]) (mkPinAdapter (some [97, 98]) false) true
      .connectFail = .ok ∧
    adapterSend (fun _ => [0]) (mkPinAdapter (some [97, 98]) true) true
      (.leafCert [5]) = .ok :=
  ⟨claim5_pinning_outcomes.1 (fun _ => [0]) [97, 98] [5] (by decide) (by decide),
   claim5_pinning_outcomes.2.1 (fun _ => [0]) (mkPinAdapter (some [97, 98]) false) true,
   claim5_pinning_outcomes.2.2.1 (fun _ => [0]) (some [97, 98]) true (.leafCert [5])⟩

/-- C6: loading the persisted cache never raises — it is a total
function — and every blob that fails to decrypt or to parse leaves the
record absent, after which the validity query answers `false`. -/
theorem claim6_corrupt_cache_is_miss :
    (∀ (dec : Bytes → Option Bytes) (parse : Bytes → Option LicenseInfo)
        (content : Bytes) (old : Option Bytes),
        dec content = none →
        loadCache dec parse true true (some content) old = none) ∧
    (∀ (dec : Bytes → Option Bytes) (parse : Bytes → Option LicenseInfo)
        (encC hasEnc : Bool) (content plain : Bytes) (old : Option Bytes),
        (if encC ∧ hasEnc then dec content else some content) = some plain →
        parse plain = none →
        loadCache dec parse encC hasEnc (some content) old = none) ∧
    (∀ (parseIso : Bytes → Option ℚ) (net : NetOutcome) (g now : ℚ),
        clientIsValid parseIso net ⟨none, g⟩ now = (.ok false, ⟨none, g⟩)) := by
  refine ⟨?_, ?_, ?_⟩
  · intro dec parse content old hdec
    simp [loadCache, hdec]
  · intro dec parse encC hasEnc content plain old hstep hparse
    simp [loadCache, hstep, hparse]
  · intro parseIso net g now
    rfl

/-- Witness for C6: a decryptor that always fails, then a parser that
always fails, at concrete blobs. -/
theorem claim6_corrupt_cache_is_miss_witness :
    loadCache (fun _ => none) (fun _ => none) true true (some [1, 2]) none = none ∧
    loadCache (fun _ => some [9]) (fun _ => none) true true (some [1, 2]) none = none ∧
    clientIsValid (fun _ => none) .reqError ⟨none, 7⟩ 0 = (.ok false, ⟨none, 7⟩) :=
  ⟨claim6_corrupt_cache_is_miss.1 (fun _ => none) (fun _ => none) [1, 2] none rfl,
   claim6_corrupt_cache_is_miss.2.1 (fun _ => some [9]) (fun _ => none) true true
     [1, 2] [9] none rfl rfl,
   claim6_corrupt_cache_is_miss.2.2 (fun _ => none) .reqError 7 0⟩

/-- C8 is refuted at this input: `AntiDebug.is_debugger_present` reports
the debugger category on a single positive indicator (here the
`sys.gettrace` probe alone), while the claim says at least two
corroborating indicators are always required. -/
theorem claim8_counterexample :
    isDebuggerPresent true false false false = true ∧
    indicatorCount [true, false, false, false] = 1 := by
  decide

/-- C8 (amended): the virtual-machine and sandbox categories are flagged
exactly when at least two of their indicators are positive, but the
debugger category is flagged as soon as any single one of its four
probes fires. -/
theorem claim8_indicator_thresholds :
    ∀ a b c d : Bool,
      (isDebuggerPresent a b c d = true ↔ 1 ≤ indicatorCount [a, b, c, d]) ∧
      (isVirtualMachine a b c = true ↔ 2 ≤ indicatorCount [a, b, c]) ∧
      (isSandbox a b c = true ↔ 2 ≤ indicatorCount [a, b, c]) := by
  decide

/-- C9: whenever a public key PEM is supplied the `require_signature`
flag is forced on — by the constructor even against an explicit
`require_signature=False`, and by `set_public_key` — so a state with a
key configured and the flag off is unreachable through these entry
points. -/
theorem claim9_require_signature_invariant :
    (∀ (pem : Option Bytes) (req : Bool),
        (initSigKeyCfg pem req).publicKeyPem.isSome = true →
        (initSigKeyCfg pem req).requireSignature = true) ∧
    (∀ pem : Bytes, (initSigKeyCfg (some pem) false).requireSignature = true) ∧
    (∀ (cfg : SigKeyCfg) (pem : Bytes),
        (setPublicKey cfg pem).requireSignature = true ∧
        (setPublicKey cfg pem).publicKeyPem = some pem) := by
  refine ⟨?_, ?_, ?_⟩
  · intro pem req h
    cases pem <;> simp_all [initSigKeyCfg]
  · intro pem
    simp [initSigKeyCfg]
  · intro cfg pem
    exact ⟨rfl, rfl⟩

/-- Witness for C9: the constructor called with a key and
`require_signature=False` still has the flag on. -/
theorem claim9_require_signature_invariant_witness :
    (initSigKeyCfg (some [1]) false).requireSignature = true :=
  claim9_require_signature_invariant.1 (some [1]) false rfl

/-- C1: response-signature verification follows the decision table.  With
no public key the payload is accepted when `require_signature` is off and
rejected with the no-key error when it is on, whatever the signature;
with a key and no signature, accepted when the flag is off and rejected
as missing when on; with a key and a signature — once the replay-window
test of C3 passes — the payload is accepted exactly when the base64
signature decodes and the RSA PKCS#1 v1.5 / SHA-256 primitive accepts it
over the canonical bytes, and rejected as invalid otherwise. -/
theorem claim1_signature_decision_table :
    ∀ (rsaVerify : Bytes → Bytes → Bool) (cfg : SigConfig) (p : SignedPayload)
      (signature : Bytes) (now : Int),
      (cfg.hasPublicKey = false → cfg.requireSignature = false →
        verifyResponseSignature rsaVerify cfg p signature now = .accept) ∧
      (cfg.hasPublicKey = false → cfg.requireSignature = true →
        verifyResponseSignature rsaVerify cfg p signature now = .noKeyError) ∧
      (cfg.hasPublicKey = true → signature = [] → cfg.requireSignature = false →
        verifyResponseSignature rsaVerify cfg p signature now = .accept) ∧
      (cfg.hasPublicKey = true → signature = [] → cfg.requireSignature = true →
        verifyResponseSignature rsaVerify cfg p signature now = .missingError) ∧
      (cfg.hasPublicKey = true → signature ≠ [] →
        replayExpired cfg p.timestamp now = false →
        ∀ sigBytes, b64decode signature = some sigBytes →
          rsaVerify sigBytes p.canonicalBytes = true →
          verifyResponseSignature rsaVerify cfg p signature now = .accept) ∧
      (cfg.hasPublicKey = true → signature ≠ [] →
        replayExpired cfg p.timestamp now = false →
        (b64decode signature = none ∨
          ∃ sigBytes, b64decode signature = some sigBytes ∧
            rsaVerify sigBytes p.canonicalBytes = false) →
        verifyResponseSignature rsaVerify cfg p signature now = .invalidError) := by
  intro rsaVerify cfg p signature now
  refine ⟨?_, ?_, ?_, ?_, ?_, ?_⟩
  · intro hk hr; simp [verifyResponseSignature, hk, hr]
  · intro hk hr; simp [verifyResponseSignature, hk, hr]
  · intro hk hs hr; simp [verifyResponseSignature, hk, hs, hr]
  · intro hk hs hr; simp [verifyResponseSignature, hk, hs, hr]
  · intro hk hs hre sigBytes hdec hok
    simp [verifyResponseSignature, verifySignatureRSA, hk, hs, hre, hdec, hok]
  · intro hk hs hre hbad
    rcases hbad with hdec | ⟨sigBytes, hdec, hbad⟩
    · simp [verifyResponseSignature, verifySignatureRSA, hk, hs, hre, hdec]
    · simp [verifyResponseSignature, verifySignatureRSA, hk, hs, hre, hdec, hbad]

/-- Witness for C1: each row of the decision table exercised at a
concrete configuration, payload and signature. -/
theorem claim1_signature_decision_table_witness :
    verifyResponseSignature (fun _ _ => true)
      ⟨false, false, 300⟩ ⟨none, []⟩ [] 0 = .accept ∧
    verifyResponseSignature (fun _ _ => true)
      ⟨false, true, 300⟩ ⟨none, []⟩ [] 0 = .noKeyError ∧
    verifyResponseSignature (fun _ _ => true)
      ⟨true, false, 300⟩ ⟨none, []⟩ [] 0 = .accept ∧
    verifyResponseSignature (fun _ _ => true)
      ⟨true, true, 300⟩ ⟨none, []⟩ [] 0 = .missingError ∧
    verifyResponseSignature (fun _ _ => true)
      ⟨true, true, 300⟩ ⟨none, []⟩ (b64encode [7]) 0 = .accept ∧
    verifyResponseSignature (fun _ _ => false)
      ⟨true, true, 300⟩ ⟨none, []⟩ (b64encode [7]) 0 = .invalidError :=
  ⟨(claim1_signature_decision_table (fun _ _ => true) ⟨false, false, 300⟩ ⟨none, []⟩
      [] 0).1 rfl rfl,
   (claim1_signature_decision_table (fun _ _ => true) ⟨false, true, 300⟩ ⟨none, []⟩
      [] 0).2.1 rfl rfl,
   (claim1_signature_decision_table (fun _ _ => true) ⟨true, false, 300⟩ ⟨none, []⟩
      [] 0).2.2.1 rfl rfl rfl,
   (claim1_signature_decision_table (fun _ _ => true) ⟨true, true, 300⟩ ⟨none, []⟩
      [] 0).2.2.2.1 rfl rfl rfl,
   (claim1_signature_decision_table (fun _ _ => true) ⟨true, true, 300⟩ ⟨none, []⟩
      (b64encode [7]) 0).2.2.2.2.1 rfl (by decide) rfl [7] (by decide) rfl,
   (claim1_signature_decision_table (fun _ _ => false) ⟨true, true, 300⟩ ⟨none, []⟩
      (b64encode [7]) 0).2.2.2.2.2 rfl (by decide) rfl
      (Or.inr ⟨[7], by decide, rfl⟩)⟩

/-- C3: with a key, a signature and a positive replay window, a payload
carrying a truthy issuance timestamp is rejected as expired exactly when
`abs(now - timestamp)` strictly exceeds the window, and this rejection
happens whatever the cryptographic verifier would say — the replay test
runs before the signature check; within the window the call reduces to
the cryptographic check. -/
theorem claim3_replay_window :
    ∀ (cfg : SigConfig) (p : SignedPayload) (signature : Bytes) (now ts : Int),
      cfg.hasPublicKey = true → signature ≠ [] → 0 < cfg.timeWindow →
      p.timestamp = some ts → ts ≠ 0 →
      ((cfg.timeWindow < |now - ts| →
          ∀ rsaVerify, verifyResponseSignature rsaVerify cfg p signature now =
            .expiredError) ∧
       (|now - ts| ≤ cfg.timeWindow →
          ∀ rsaVerify, verifyResponseSignature rsaVerify cfg p signature now =
            verifySignatureRSA rsaVerify p.canonicalBytes signature)) := by
  intro cfg p signature now ts hk hs hw hts htz
  constructor
  · intro hfar rsaVerify
    have hre : replayExpired cfg p.timestamp now = true := by
      simp [replayExpired, hw, hts, htz, hfar]
    simp [verifyResponseSignature, hk, hs, hre]
  · intro hnear rsaVerify
    have hre : replayExpired cfg p.timestamp now = false := by
      simp [replayExpired, hw, hts, htz]
      omega
    simp [verifyResponseSignature, hk, hs, hre]

/-- Witness for C3 at the boundary: with a 300-second window, a
timestamp exactly 300 seconds old reaches the cryptographic check and a
timestamp 301 seconds old is rejected as expired. -/
theorem claim3_replay_window_witness :
    verifyResponseSignature (fun _ _ => true) ⟨true, true, 300⟩
      ⟨some 1000, []⟩ (b64encode [7]) 1300 =
      verifySignatureRSA (fun _ _ => true) [] (b64encode [7]) ∧
    verifyResponseSignature (fun _ _ => true) ⟨true, true, 300⟩
      ⟨some 1000, []⟩ (b64encode [7]) 1301 = .expiredError :=
  ⟨(claim3_replay_window ⟨true, true, 300⟩ ⟨some 1000, []⟩ (b64encode [7]) 1300 1000
      rfl (by decide) (by decide) rfl (by decide)).2 (by decide) (fun _ _ => true),
   (claim3_replay_window ⟨true, true, 300⟩ ⟨some 1000, []⟩ (b64encode [7]) 1301 1000
      rfl (by decide) (by decide) rfl (by decide)).1 (by decide) (fun _ _ => true)⟩

/-- C2: with a cached record whose `valid` flag is set and whose expiry
test does not fire, `is_valid` computes `(now - last_verified_at)/86400`;
at or under the grace period it answers `true` with no use of the network
(the answer and the state are the same for every network outcome); over
the grace period it is exactly the synchronous `verify` call, and a
`verify` that fails with a `LicenseError` (the network-failure path)
yields `false` rather than an exception. -/
theorem claim2_offline_grace :
    ∀ (parseIso : Bytes → Option ℚ) (st : ClientState) (info : LicenseInfo)
      (lv now : ℚ),
      st.licenseInfo = some info → info.valid = true →
      expiredCheck parseIso info.expireAt now = false →
      info.lastVerifiedAt = some lv →
      (((now - lv) / 86400 ≤ st.graceDays →
          ∀ net, clientIsValid parseIso net st now = (.ok true, st)) ∧
       (st.graceDays < (now - lv) / 86400 →
          ∀ net, clientIsValid parseIso net st now = clientVerify net st now) ∧
       (st.graceDays < (now - lv) / 86400 →
          clientIsValid parseIso .reqError st now = (.ok false, st))) := by
  intro parseIso st info lv now hinfo hvalid hexp hlast
  refine ⟨?_, ?_, ?_⟩
  · intro hle net
    simp [clientIsValid, hinfo, hvalid, hexp, hlast, not_lt.mpr hle]
  · intro hgt net
    simp [clientIsValid, hinfo, hvalid, hexp, hlast, hgt]
  · intro hgt
    simp [clientIsValid, clientVerify, hinfo, hvalid, hexp, hlast, hgt]

/-- Witness for C2: grace period 7 days; one day offline answers `true`
for an unreachable network, ten days offline routes to `verify` and a
network failure answers `false`. -/
theorem claim2_offline_grace_witness :
    clientIsValid (fun _ => none) .reqError
      ⟨some ⟨true, .pyNone, some 0⟩, 7⟩ 86400 =
      (.ok true, ⟨some ⟨true, .pyNone, some 0⟩, 7⟩) ∧
    clientIsValid (fun _ => none) .reqError
      ⟨some ⟨true, .pyNone, some 0⟩, 7⟩ 864000 =
      (.ok false, ⟨some ⟨true, .pyNone, some 0⟩, 7⟩) :=
  ⟨(claim2_offline_grace (fun _ => none) ⟨some ⟨true, .pyNone, some 0⟩, 7⟩
      ⟨true, .pyNone, some 0⟩ 0 86400 rfl rfl rfl rfl).1 (by norm_num) .reqError,
   (claim2_offline_grace (fun _ => none) ⟨some ⟨true, .pyNone, some 0⟩, 7⟩
      ⟨true, .pyNone, some 0⟩ 0 864000 rfl rfl rfl rfl).2.2 (by norm_num)⟩

/-- C10: the expiry timestamp is enforced only for parsable strings.
With the `valid` flag set and the grace period not exceeded, a numeric
`expire_at` — even one denoting a past instant — and an unparsable
string both leave the expiry check silently skipped and `is_valid`
answers `true`; a parsable string in the past answers `false`. -/
theorem claim10_expiry_skipped_for_non_strings :
    ∀ (parseIso : Bytes → Option ℚ) (st : ClientState) (info : LicenseInfo)
      (lv now : ℚ),
      st.licenseInfo = some info → info.valid = true →
      info.lastVerifiedAt = some lv → (now - lv) / 86400 ≤ st.graceDays →
      ((∀ q : ℚ, info.expireAt = .pyNum q → q < now →
          ∀ net, clientIsValid parseIso net st now = (.ok true, st)) ∧
       (∀ s : Bytes, info.expireAt = .pyStr s → s ≠ [] → parseIso s = none →
          ∀ net, clientIsValid parseIso net st now = (.ok true, st)) ∧
       (∀ (s : Bytes) (t : ℚ), info.expireAt = .pyStr s → s ≠ [] →
          parseIso s = some t → t < now →
          ∀ net, clientIsValid parseIso net st now = (.ok false, st))) := by
  intro parseIso st info lv now hinfo hvalid hlast hgrace
  refine ⟨?_, ?_, ?_⟩
  · intro q hq hpast net
    simp [clientIsValid, expiredCheck, hinfo, hvalid, hq, hlast, not_lt.mpr hgrace]
  · intro s hs hne hparse net
    simp [clientIsValid, expiredCheck, hinfo, hvalid, hs, hne, hparse, hlast,
      not_lt.mpr hgrace]
  · intro s t hs hne hparse hpast net
    simp [clientIsValid, expiredCheck, hinfo, hvalid, hs, hne, hparse, hpast, hlast]

/-- Witness for C10: a numeric epoch `expire_at = 100` long in the past
still answers `true` at `now = 86400`, while the same instant as a
parsable string answers `false`. -/
theorem claim10_expiry_skipped_for_non_strings_witness :
    clientIsValid (fun _ => some 100) .reqError
      ⟨some ⟨true, .pyNum 100, some 0⟩, 7⟩ 86400 =
      (.ok true, ⟨some ⟨true, .pyNum 100, some 0⟩, 7⟩) ∧
    clientIsValid (fun _ => some 100) .reqError
      ⟨some ⟨true, .pyStr [50], some 0⟩, 7⟩ 86400 =
      (.ok false, ⟨some ⟨true, .pyStr [50], some 0⟩, 7⟩) :=
  ⟨(claim10_expiry_skipped_for_non_strings (fun _ => some 100)
      ⟨some ⟨true, .pyNum 100, some 0⟩, 7⟩ ⟨true, .pyNum 100, some 0⟩ 0 86400
      rfl rfl rfl (by norm_num)).1 100 rfl (by norm_num) .reqError,
   (claim10_expiry_skipped_for_non_strings (fun _ => some 100)
      ⟨some ⟨true, .pyStr [50], some 0⟩, 7⟩ ⟨true, .pyStr [50], some 0⟩ 0 86400
      rfl rfl rfl (by norm_num)).2.2 [50] 100 rfl (by decide) rfl (by norm_num)
      .reqError⟩

/-- C4: the cache round-trips in both modes.  With the crypto library a
Fernet token survives `decrypt ∘ encrypt`; without it the XOR stream
does; and `decrypt` tries the Fernet path first and falls back to XOR
de-obfuscation when authenticated decryption rejects the blob, so a
record written under the XOR mode is still read back under the primary
mode. -/
theorem claim4_cache_roundtrip :
    ∀ (fb : FernetBox) (key data : Bytes),
      key ≠ [] → (∀ b ∈ key, b < 256) → (∀ b ∈ data, b < 256) →
      fb.fdec (fb.fenc data) = some data →
      (∀ b ∈ fb.fenc data, b < 256) →
      (cacheDecrypt true fb key (cacheEncrypt true fb key data) = some data ∧
       cacheDecrypt false fb key (cacheEncrypt false fb key data) = some data ∧
       (fb.fdec (xorWith key data) = none →
         cacheDecrypt true fb key (simpleObfuscate key data) = some data)) := by
  intro fb key data hkeynil hkey hdata hfr hfb
  have hxor : ∀ b ∈ xorWith key data, b < 256 :=
    xorFrom_lt key hkey 0 data hdata
  have hxorrt : xorWith key (xorWith key data) = data :=
    xorFrom_involutive key 0 data
  refine ⟨?_, ?_, ?_⟩
  · simp [cacheEncrypt, cacheDecrypt, b64decode_b64encode _ hfb, hfr]
  · simp [cacheEncrypt, cacheDecrypt, simpleObfuscate, simpleDeobfuscate,
      b64decode_b64encode _ hxor, hxorrt]
  · intro hreject
    simp [cacheDecrypt, simpleObfuscate, simpleDeobfuscate,
      b64decode_b64encode _ hxor, hreject, hxorrt]

/-- Witness for C4 with a concrete authenticated-encryption box (tag
byte `0`), key `[1]` and record `[2, 3]`; the XOR blob `[3, 2]` carries
no tag, so the primary path rejects it and the fallback reads it. -/
theorem claim4_cache_roundtrip_witness :
    cacheDecrypt true ⟨fun x => 0 :: x, fun x => match x with
        | 0 :: r => some r
        | _ => none⟩ [1]
      (cacheEncrypt true ⟨fun x => 0 :: x, fun x => match x with
        | 0 :: r => some r
        | _ => none⟩ [1] [2, 3]) = some [2, 3] ∧
    cacheDecrypt false ⟨fun x => 0 :: x, fun x => match x with
        | 0 :: r => some r
        | _ => none⟩ [1]
      (cacheEncrypt false ⟨fun x => 0 :: x, fun x => match x with
        | 0 :: r => some r
        | _ => none⟩ [1] [2, 3]) = some [2, 3] ∧
    cacheDecrypt true ⟨fun x => 0 :: x, fun x => match x with
        | 0 :: r => some r
        | _ => none⟩ [1]
      (simpleObfuscate [1] [2, 3]) = some [2, 3] := by
  have h := claim4_cache_roundtrip ⟨fun x => 0 :: x, fun x => match x with
      | 0 :: r => some r
      | _ => none⟩ [1] [2, 3]
    (by decide) (by decide) (by decide) (by decide) (by decide)
  exact ⟨h.1, h.2.1, h.2.2 (by decide)⟩

/-- C7: whenever a due full security check detects a violation — a
debugger probe firing inside the check, a clock rollback, an integrity
failure with the integrity check enabled, or a failed registered
validator — the hardened `is_valid` answers `false` on that very call
(whatever the wrapped client would have answered) and the persisted
record is silently erased: the in-memory record and both cache files are
gone, with no distinguishing signal in the returned value. -/
theorem claim7_violation_erases_cache :
    ∀ (probes : SecProbes) (enableIntegrityCheck baseValid : Bool)
      (now : ℚ) (st : SecureState),
      probes.debuggerAtWrapper = false →
      ((st.checkCount + 1) % 10 = 0 ∨ 300 < now - st.lastFullCheck) →
      (probes.debuggerAtFullCheck = true ∨ probes.timeOk = false ∨
        (enableIntegrityCheck = true ∧ probes.integrityOk = false) ∨
        probes.validatorsOk = false) →
      (secureIsValid probes enableIntegrityCheck baseValid now st).1 = false ∧
      (secureIsValid probes enableIntegrityCheck baseValid now st).2.licenseInfo =
        none ∧
      (secureIsValid probes enableIntegrityCheck baseValid now st).2.cacheFile =
        none ∧
      (secureIsValid probes enableIntegrityCheck baseValid now st).2.oldCacheFile =
        none := by
  intro probes e bv now st hwrap hdue hviol
  have hfc : fullSecurityCheck probes e { st with checkCount := st.checkCount + 1 } =
      (false, clearCache { st with checkCount := st.checkCount + 1 }) := by
    rcases hviol with h | h | ⟨h1, h2⟩ | h <;>
      cases hd : probes.debuggerAtFullCheck <;>
      cases ht : probes.timeOk <;>
      cases hi : probes.integrityOk <;>
      cases hv : probes.validatorsOk <;>
      simp_all [fullSecurityCheck]
  simp [secureIsValid, hwrap, hdue, hfc, clearCache]

/-- Witness for C7: a due full check (10th call) with a clock rollback
detected erases an otherwise-valid record. -/
theorem claim7_violation_erases_cache_witness :
    (secureIsValid ⟨false, false, false, true, true⟩ true true 0
      ⟨9, 0, some ⟨true, .pyNone, some 0⟩, some [1], some [2]⟩).1 = false ∧
    (secureIsValid ⟨false, false, false, true, true⟩ true true 0
      ⟨9, 0, some ⟨true, .pyNone, some 0⟩, some [1], some [2]⟩).2.licenseInfo =
      none :=
  have h := claim7_violation_erases_cache ⟨false, false, false, true, true⟩ true true
    0 ⟨9, 0, some ⟨true, .pyNone, some 0⟩, some [1], some [2]⟩ rfl
    (Or.inl (by decide)) (Or.inr (Or.inl rfl))
  ⟨h.1, h.2.1⟩

end LicenseSDK
